import Mathlib

/-!
# Verification of the Adhithe course-pipeline specification

This file gives a shallow embedding of the Adhithe repository: the React
webapp's data types and `App` handlers (from `webapp/src/types.ts`,
`webapp/src/App.tsx`), and the three-stage content pipeline
(`web_search.py`, `web_fetch.py`, `prepare_tts.py`, `run_pipeline.py`).
The Python pipeline sources are not part of the checked-in tree available
here, so those definitions are modelled from the specification's own
description of each stage; each such definition is marked
`Modelled from the spec:` in its doc comment.

JavaScript numbers are embedded as `ℚ` (no floating point arithmetic is
relied on by any claim), strings as `String`, optional fields as `Option`.
-/

namespace Adhithe

/-! ## Webapp data model (webapp/src/types.ts) -/

/-- The `Episode` interface of `types.ts`: one lesson episode of a course. -/
structure Episode where
  episode_number : Nat
  title : String
  duration_minutes : ℚ
  script : String
  difficulty : String
  quiz : List String
  audio_file : Option String
deriving Repr, DecidableEq

/-- The `TopicPayload` interface of `types.ts`: the course manifest as the
webapp receives it from the backend.  Note the declared fields: there is a
`tts_file?` optional field and no `usage` field. -/
structure TopicPayload where
  topic : String
  slug : String
  requested_days : ℚ
  content_days : Int
  episode_count : Nat
  total_minutes : ℚ
  audio_enabled : Bool
  episodes : List Episode
  course_url : Option String
  tts_file : Option String
deriving Repr, DecidableEq

/-- The `UserProfile` interface of `types.ts`. -/
structure UserProfile where
  name : String
  email : String
  topics : List TopicPayload
deriving Repr, DecidableEq

/-- The JSON keys present when an `Episode` value is serialized: required
interface fields always, optional ones exactly when set (TS optional fields
are omitted from the JSON when absent). -/
def Episode.jsonKeys (e : Episode) : List String :=
  ["episode_number", "title", "duration_minutes", "script", "difficulty", "quiz"]
    ++ (match e.audio_file with | some _ => ["audio_file"] | none => [])

/-- The JSON keys present when a `TopicPayload` manifest is serialized. -/
def TopicPayload.jsonKeys (p : TopicPayload) : List String :=
  ["topic", "slug", "requested_days", "content_days", "episode_count",
   "total_minutes", "audio_enabled", "episodes"]
    ++ (match p.course_url with | some _ => ["course_url"] | none => [])
    ++ (match p.tts_file with | some _ => ["tts_file"] | none => [])

/-- The manifest key set asserted by the spec (written from the spec's words,
for comparison against the code's `TopicPayload.jsonKeys`): the spec lists the
eight required fields, an optional `course_url`, and a `usage` field. -/
def specManifestKeys (hasCourseUrl : Bool) : List String :=
  ["topic", "slug", "requested_days", "content_days", "episode_count",
   "total_minutes", "audio_enabled", "episodes"]
    ++ (if hasCourseUrl then ["course_url"] else [])
    ++ ["usage"]

/-! ## Webapp App state and handlers (webapp/src/App.tsx) -/

/-- The `duration_unit` union type `"hours" | "days"`. -/
inductive DurationUnit where
  | hours
  | days
deriving Repr, DecidableEq

/-- The `PlanPayload` interface of `lib/api.ts`: body of the
`POST /planning/episodes` request. -/
structure PlanPayload where
  email : String
  topic : String
  duration_value : ℚ
  duration_unit : DurationUnit
deriving Repr, DecidableEq

/-- The announcement record `{id, topic, url?}` set by `handlePlanSaved`. -/
structure CourseAnnouncement where
  id : String
  topic : String
  url : Option String
deriving Repr, DecidableEq

/-- The `useState` cells of the `App` component. -/
structure AppState where
  user : Option UserProfile
  suggestedTopic : Option String
  suggestedDurationValue : Option ℚ
  suggestedDurationUnit : Option DurationUnit
  latestCourse : Option TopicPayload
  courseAnnouncement : Option CourseAnnouncement
  courseLoading : Bool
deriving Repr, DecidableEq

/-- Embeds `courseUrlFromTopic` of `App.tsx`: absolute URL when the payload carries a
`course_url`.  `apiBase` stands for the `API_BASE_URL` constant. -/
def courseUrlFromTopic (apiBase : String) (t : TopicPayload) : Option String :=
  t.course_url.map (fun u => apiBase ++ u)

/-- Embeds `handlePlanSaved` of `App.tsx`: prepend the saved topic to the signed-in
user's topic list after filtering out entries with the same slug, make it the
latest course, and publish an announcement.  `freshId` stands for the value of
`crypto.randomUUID()`. -/
def handlePlanSaved (freshId apiBase : String) (topic : TopicPayload)
    (st : AppState) : AppState :=
  { st with
    user := st.user.map (fun prev =>
      { prev with
        topics := topic :: prev.topics.filter (fun entry => entry.slug ≠ topic.slug) }),
    latestCourse := some topic,
    courseAnnouncement := some ⟨freshId, topic.topic, courseUrlFromTopic apiBase topic⟩ }

/-- Observable outcome of one `handleGenerateCourse` invocation: the error it
throws (if any), the `createPlan` request it issued (if any), the plan it
saved, and the final component state. -/
structure GenOutcome where
  thrown : Option String
  request : Option PlanPayload
  planSaved : Option TopicPayload
  finalState : AppState
deriving Repr, DecidableEq

/-- Embeds `handleGenerateCourse` of `App.tsx`.  JavaScript truthiness of the guard
`!suggestedTopic || !suggestedDurationValue || !suggestedDurationUnit` is
embedded exactly: a `string | null` is falsy when `null` or `""`, a
`number | null` is falsy when `null` or `0`.  The `createPlan` network call is
an oracle `cp`; the `finally` block resets `courseLoading` whether the call
resolves or rejects, and a rejection propagates as a thrown error. -/
def handleGenerateCourse (freshId apiBase : String)
    (cp : PlanPayload → Except String TopicPayload) (st : AppState) : GenOutcome :=
  match st.user with
  | none => ⟨some "Please sign in to generate a course.", none, none, st⟩
  | some u =>
    match st.suggestedTopic, st.suggestedDurationValue, st.suggestedDurationUnit with
    | some t, some v, some du =>
      if t = "" ∨ v = 0 then
        ⟨some "Share your topic and time estimate in the chat before requesting a course.",
         none, none, st⟩
      else
        let st1 := { st with courseLoading := true }
        let payload : PlanPayload := ⟨u.email, t, v, du⟩
        match cp payload with
        | .ok plan =>
          let st2 := handlePlanSaved freshId apiBase plan st1
          ⟨none, some payload, some plan, { st2 with courseLoading := false }⟩
        | .error e =>
          ⟨some e, some payload, none, { st1 with courseLoading := false }⟩
    | _, _, _ =>
      ⟨some "Share your topic and time estimate in the chat before requesting a course.",
       none, none, st⟩

/-! ## Pipeline configuration and usage accounting -/

/-- Modelled from the spec: `config.py` is not in src/.  The immutable
`Settings` value of tunables threaded into every stage (configuration surface
of spec section 6). -/
structure Settings where
  target_unique_urls : Nat
  max_search_attempts : Nat
  content_multiplier : ℚ
  episode_min_minutes : ℚ
  episode_max_minutes : ℚ
  quiz_length : Nat
  words_per_minute : ℚ
  max_summary_sentences : Nat
  min_segment_words : Nat
  mock_mode : Bool
  reuse_cached : Bool
  audio_enabled : Bool
deriving Repr, DecidableEq

/-- Modelled from the spec: the documented default tunables
(TARGET_UNIQUE_URLS 35, MAX_SEARCH_ATTEMPTS 6, CONTENT_MULTIPLIER 2.0,
episode bounds 20-45 minutes, 3 quiz questions, WORDS_PER_MINUTE 160,
minimum 50 words per segment). -/
def defaultSettings : Settings :=
  ⟨35, 6, 2, 20, 45, 3, 160, 10, 50, false, true, true⟩

/-- Modelled from the spec: per-run usage statistics (provider call count and
token totals), reset per run. -/
structure Usage where
  calls : Nat
  input_tokens : Nat
  output_tokens : Nat
deriving Repr, DecidableEq

/-- Usage accumulator start value. -/
def zeroUsage : Usage := ⟨0, 0, 0⟩

/-- Componentwise accumulation of usage statistics. -/
def addUsage (a b : Usage) : Usage :=
  ⟨a.calls + b.calls, a.input_tokens + b.input_tokens, a.output_tokens + b.output_tokens⟩

/-! ## Shared text utilities -/

/-- Modelled from the spec: the character classes removed by the shared
`clean_text_for_tts` cleaner (Greek letters, mathematical operators, LaTeX
backslash notation, bracketed citation markers).  Bracketed-citation removal
is embedded as removal of the bracket characters themselves. -/
def mathChars : List Char :=
  ['∈', '∑', '∏', 'π', 'α', 'β', 'γ', 'δ', 'ε', 'θ', 'λ', 'μ', 'σ', 'φ', 'ω',
   'Γ', 'Δ', 'Σ', 'Φ', 'Ω', '×', '÷', '±', '→', '←', '≤', '≥', '≠', '≈', '∞',
   '√', '∫', '∂', '\\', '\x7b', '\x7d', '[', ']']

/-- Modelled from the spec: the shared TTS text cleaner reused by Fetch &
Summarize and the Script Composer: drop every math-notation character. -/
def cleanForTTS (s : String) : String :=
  ⟨s.data.filter (fun c => !(mathChars.contains c))⟩

/-- Split a character list at every occurrence of a separator character
(structural helper for word and sentence splitting). -/
def splitChars (sep : Char) : List Char → List (List Char)
  | [] => [[]]
  | c :: cs =>
    let r := splitChars sep cs
    if c = sep then [] :: r
    else
      match r with
      | [] => [[c]]
      | w :: ws => (c :: w) :: ws

/-- Whitespace-separated non-empty words of a string. -/
def wordsOf (s : String) : List String :=
  ((splitChars ' ' s.data).map (fun cs => (⟨cs⟩ : String))).filter (fun w => w ≠ "")

/-- Word count used for segment sizing. -/
def countWords (s : String) : Nat := (wordsOf s).length

/-- Sentence split (on periods) used by the extractive summarizer. -/
def sentencesOf (s : String) : List String :=
  ((splitChars '.' s.data).map (fun cs => (⟨cs⟩ : String))).filter
    (fun x => x ≠ "" ∧ x ≠ " ")

/-- Number of occurrences of a word in a word list. -/
def wordFreq (ws : List String) (w : String) : Nat :=
  (ws.filter (fun v => v = w)).length

/-- Modelled from the spec: sentence score for extractive summarization, the
term frequency of the sentence's words over the whole document, normalized by
sentence length. -/
def sentenceScore (allWords : List String) (sen : String) : ℚ :=
  let ws := wordsOf sen
  if ws.length = 0 then 0
  else ((ws.map (fun w => (wordFreq allWords w : ℚ))).sum) / (ws.length : ℚ)

/-- Modelled from the spec: extractive summarizer — keep, in original order,
the sentences whose normalized term-frequency score is among the `maxN`
largest, capped at `maxN` sentences. -/
def summarize (maxN : Nat) (text : String) : String :=
  let sens := sentencesOf text
  let aw := wordsOf text
  let sorted := (sens.map (sentenceScore aw)).mergeSort (fun a b => decide (b ≤ a))
  let cutoff := sorted.getD (maxN - 1) 0
  String.intercalate ". "
    ((sens.filter (fun sen => decide (cutoff ≤ sentenceScore aw sen))).take maxN)

/-- Character-level test that `needle` occurs at the start of `hay`. -/
def beginsWith : List Char → List Char → Bool
  | [], _ => true
  | _ :: _, [] => false
  | n :: ns, h :: hs => n == h && beginsWith ns hs

/-- Character-level substring occurrence test. -/
def hasSubChars (needle : List Char) : List Char → Bool
  | [] => needle.isEmpty
  | h :: hs => beginsWith needle (h :: hs) || hasSubChars needle hs

/-- Substring test used for the banned-phrase filter. -/
def strContains (hay needle : String) : Bool :=
  hasSubChars needle.data hay.data

/-! ## Fetch & Summarize (stage 2) -/

/-- Modelled from the spec: outcome of retrieving one URL, as returned by the
HTTP/parsing layer (an external collaborator). -/
inductive FetchResult where
  | ok (text : String)
  | failed (msg : String)
deriving Repr, DecidableEq

/-- Modelled from the spec: one content segment derived from one citation
(record of `summaries.txt`): URL, word count, summary text, full text, and an
optional error marker. -/
structure Segment where
  url : String
  word_count : Nat
  summary : String
  full_text : String
  error : Option String
deriving Repr, DecidableEq

/-- Modelled from the spec: `web_fetch.py` is not in src/.  Per-URL
processing: a failed fetch or parse yields a Segment carrying the error
marker; a success yields word count, extractive summary and full text.
Markup stripping happens in the fetch collaborator, so `FetchResult.ok`
carries already-extracted text. -/
def processUrl (cfg : Settings) (fetch : String → FetchResult) (u : String) : Segment :=
  match fetch u with
  | .failed msg => ⟨u, 0, "", "", some msg⟩
  | .ok text => ⟨u, countWords text, summarize cfg.max_summary_sentences text, text, none⟩

/-- Modelled from the spec: the Fetch & Summarize batch — one Segment per
input URL, in input order; a bad URL never aborts the batch. -/
def processUrls (cfg : Settings) (fetch : String → FetchResult)
    (urls : List String) : List Segment :=
  urls.map (processUrl cfg fetch)

/-- Estimated speaking minutes of a segment: `word_count / words_per_minute`. -/
def segMinutes (wpm : ℚ) (s : Segment) : ℚ := (s.word_count : ℚ) / wpm

/-! ## Citation Collector (stage 1) -/

/-- Modelled from the spec: `web_search.py` is not in src/.  Merge one
citation URL into the running unique list: once the unique target is reached
nothing more is added; otherwise a URL not yet seen is appended (first-seen
order). -/
def capInsert (target : Nat) (acc : List String) (u : String) : List String :=
  if target ≤ acc.length then acc
  else if u ∈ acc then acc
  else acc ++ [u]

/-- Modelled from the spec: the multi-pass collection merge.  `passes` holds
the citation URLs extracted from each search angle's response, in pass order;
URLs are merged one at a time in first-seen order with the mid-pass stop at
`target` unique URLs.  (Skipping a whole pass once the target is reached adds
nothing, so the per-pass loop is flattened into one stream.) -/
def collectUrls (target : Nat) (passes : List (List String)) : List String :=
  passes.flatten.foldl (capInsert target) []

/-- Index of the first occurrence of `u` in `l` (length of `l` when absent):
the first-seen position used to state insertion-order preservation. -/
def firstPos (l : List String) (u : String) : Nat :=
  (l.takeWhile (fun v => decide (v ≠ u))).length

/-! ## Script Composer (stage 3) -/

/-- Modelled from the spec: `prepare_tts.py` is not in src/.  Banned
boilerplate phrases whose presence disqualifies a segment. -/
def bannedPhrases : List String :=
  ["all rights reserved", "subscribe to our newsletter", "sponsored content"]

/-- Modelled from the spec: a segment is usable when it carries no error
marker, meets the minimum word count, and matches no banned phrase. -/
def usableSegment (minWords : Nat) (s : Segment) : Bool :=
  s.error.isNone && decide (minWords ≤ s.word_count) &&
    !(bannedPhrases.any (fun p => strContains s.full_text p))

/-- Modelled from the spec: deduplicate segments by their text, keeping the
first occurrence. -/
def dedupByText (segs : List Segment) : List Segment :=
  segs.foldl (fun acc s =>
    if acc.any (fun v => v.full_text == s.full_text) then acc else acc ++ [s]) []

/-- Modelled from the spec: composer step 1 — drop errored, short and
boilerplate segments, then deduplicate by text. -/
def filterSegments (minWords : Nat) (segs : List Segment) : List Segment :=
  dedupByText (segs.filter (usableSegment minWords))

/-- Modelled from the spec: `content_days = round(requested_days *
content_multiplier)`. -/
def contentDays (requested mult : ℚ) : Int := round (requested * mult)

/-- Modelled from the spec: `target_minutes_per_episode =
clamp(total_minutes / content_days, episode_min, episode_max)`. -/
def targetMinutes (cfg : Settings) (total : ℚ) (cdays : Int) : ℚ :=
  min cfg.episode_max_minutes (max cfg.episode_min_minutes (total / (cdays : ℚ)))

/-- Total estimated speaking minutes of a bucket of segments. -/
def bucketMinutes (wpm : ℚ) (b : List Segment) : ℚ :=
  (b.map (segMinutes wpm)).sum

/-- State of the greedy grouping walk: closed episode buckets, the current
bucket, and its accumulated minutes. -/
structure GroupSt where
  closed : List (List Segment)
  cur : List Segment
  curMin : ℚ
deriving Repr

/-- Modelled from the spec: composer step 3, one step of the greedy
bin-packing walk.  If adding the next segment would push the current
(non-empty) bucket past the configured maximum, the bucket is closed first
and the segment starts a new one; otherwise the segment is added and the
bucket is closed as soon as its minutes reach the target and the configured
minimum. -/
def groupStep (minv maxv target wpm : ℚ) (st : GroupSt) (s : Segment) : GroupSt :=
  let m := segMinutes wpm s
  if st.cur ≠ [] ∧ maxv < st.curMin + m then
    ⟨st.closed ++ [st.cur], [s], m⟩
  else
    let cm := st.curMin + m
    if target ≤ cm ∧ minv ≤ cm then ⟨st.closed ++ [st.cur ++ [s]], [], 0⟩
    else ⟨st.closed, st.cur ++ [s], cm⟩

/-- Modelled from the spec: the final bucket absorbs any trailing remainder
of segments (merged into the last closed episode), even if this pushes its
duration above the configured maximum, so no content segment is dropped. -/
def absorbRemainder (closed : List (List Segment)) (cur : List Segment) :
    List (List Segment) :=
  if cur = [] then closed
  else if closed = [] then [cur]
  else closed.dropLast ++ [closed.getLastD [] ++ cur]

/-- Modelled from the spec: composer step 3 — greedy duration-aware grouping
of the filtered segments into episode buckets. -/
def groupSegments (minv maxv target wpm : ℚ) (segs : List Segment) :
    List (List Segment) :=
  let st := segs.foldl (groupStep minv maxv target wpm) ⟨[], [], 0⟩
  absorbRemainder st.closed st.cur

/-- Modelled from the spec: the script-generation provider's response for one
episode — missing, malformed raw text, or a JSON object with `title`,
`script` and `quiz` fields. -/
inductive ProviderResponse where
  | missing
  | malformed (raw : String)
  | json (title script : String) (quiz : List String)
deriving Repr, DecidableEq

/-- Modelled from the spec: JSON validation of a provider response — the
three fields must be present and the quiz must have exactly `qlen` items. -/
def respValid (qlen : Nat) : ProviderResponse → Bool
  | .json _ _ q => q.length == qlen
  | _ => false

/-- Modelled from the spec: the fixed set of generic placeholder quiz
questions used by the deterministic fallback. -/
def placeholderQuiz (n : Nat) : List String :=
  (List.range n).map (fun i =>
    "Question " ++ toString (i + 1) ++ ": recall one key idea from this episode.")

/-- Modelled from the spec: fallback title — the topic name plus the episode
index. -/
def fallbackTitle (topic : String) (idx : Nat) : String :=
  topic ++ (" - Episode " ++ toString idx)

/-- Opening words of the deterministic fallback script, naming the episode
index and leading into the topic name. -/
def fsIntro (idx : Nat) : String :=
  "Welcome to episode " ++ toString idx ++ " of your course on "

/-- Simple transition sentence between the bucket's segment texts in the
fallback script. -/
def transitionSentence : String := " Moving on to the next source. "

/-- Body of the fallback script: the bucket's segment texts joined with
transition sentences (the composer's shared TTS cleaner is applied to the
whole script afterwards). -/
def fsBody (bucket : List Segment) : String :=
  ". " ++ String.intercalate transitionSentence (bucket.map (fun s => s.full_text))

/-- Modelled from the spec: the deterministic fallback script — topic name
and episode index, then the bucket's segment texts with simple transitions. -/
def fallbackScript (topic : String) (idx : Nat) (bucket : List Segment) : String :=
  fsIntro idx ++ (topic ++ fsBody bucket)

/-- The complete deterministic fallback content for one episode:
(title, script, quiz). -/
def fallbackTriple (qlen : Nat) (topic : String) (idx : Nat)
    (bucket : List Segment) : String × String × List String :=
  (fallbackTitle topic idx, fallbackScript topic idx bucket, placeholderQuiz qlen)

/-- Modelled from the spec: composer step 4 — use the provider's JSON content
when it validates, otherwise fall back deterministically. -/
def resolveTriple (qlen : Nat) (topic : String) (idx : Nat) (bucket : List Segment) :
    ProviderResponse → String × String × List String
  | .json t s q =>
      if q.length = qlen then (t, s, q) else fallbackTriple qlen topic idx bucket
  | _ => fallbackTriple qlen topic idx bucket

/-- Modelled from the spec: composer step 5 — difficulty by position tertile
(first third Beginner, middle third Intermediate, last third Advanced), for
1-based episode index `idx` out of `total`. -/
def difficultyLabel (total idx : Nat) : String :=
  if 3 * idx ≤ total then "Beginner"
  else if 3 * idx ≤ 2 * total then "Intermediate"
  else "Advanced"

/-- Pair each bucket with its 1-based episode number, in order. -/
def numberFrom (k : Nat) : List (List Segment) → List (Nat × List Segment)
  | [] => []
  | b :: bs => (k, b) :: numberFrom (k + 1) bs

/-- Modelled from the spec: assemble one `Episode` from its bucket and the
provider response; the shared TTS cleaner is applied to the script
(finalize step 7). -/
def composeEpisode (cfg : Settings) (topic : String) (total idx : Nat)
    (bucket : List Segment) (r : ProviderResponse) : Episode :=
  { episode_number := idx,
    title := (resolveTriple cfg.quiz_length topic idx bucket r).1,
    duration_minutes := bucketMinutes cfg.words_per_minute bucket,
    script := cleanForTTS (resolveTriple cfg.quiz_length topic idx bucket r).2.1,
    difficulty := difficultyLabel total idx,
    quiz := (resolveTriple cfg.quiz_length topic idx bucket r).2.2,
    audio_file := none }

/-- Modelled from the spec: the Script Composer stage (`prepare_tts.py` is
not in src/): filter, size, group, synthesize per episode (with the provider
as an oracle `generate`; in mock mode the provider is never consulted and the
deterministic fallback fixture is used), assign difficulty and contiguous
episode numbers, and assemble the manifest with derived totals.  The
inter-call cooldown (step 6) has no observable effect in this embedding. -/
def composeRun (cfg : Settings) (generate : Nat → ProviderResponse × Usage)
    (topic slug : String) (requested_days : ℚ) (segs : List Segment) :
    TopicPayload × Usage :=
  let usable := filterSegments cfg.min_segment_words segs
  let cdays := contentDays requested_days cfg.content_multiplier
  let total0 := bucketMinutes cfg.words_per_minute usable
  let target := targetMinutes cfg total0 cdays
  let buckets := groupSegments cfg.episode_min_minutes cfg.episode_max_minutes
      target cfg.words_per_minute usable
  let n := buckets.length
  let eps := (numberFrom 1 buckets).map (fun p =>
    composeEpisode cfg topic n p.1 p.2
      (if cfg.mock_mode then ProviderResponse.missing else (generate p.1).1))
  let usage := if cfg.mock_mode then zeroUsage
    else ((List.range n).map (fun i => (generate (i + 1)).2)).foldl addUsage zeroUsage
  ({ topic := topic, slug := slug, requested_days := requested_days,
     content_days := cdays, episode_count := n,
     total_minutes := (eps.map (fun e => e.duration_minutes)).sum,
     audio_enabled := cfg.audio_enabled, episodes := eps,
     course_url := some ("/topics/" ++ slug ++ "/tts_ready.txt"),
     tts_file := none }, usage)

/-! ## Pipeline Orchestrator -/

/-- Modelled from the spec: deterministic fixture URLs used when mock mode
short-circuits the Citation Collector. -/
def mockUrls : List String :=
  ["https://example.com/mock-source-1", "https://example.com/mock-source-2"]

/-- Modelled from the spec: deterministic fixture article text used when
mock mode short-circuits the fetch stage (long enough to pass the default
minimum word count). -/
def mockArticle : String :=
  "This mock article stands in for fetched web content during integration " ++
  "testing. It explains the core ideas of the requested topic in plain " ++
  "language and at a steady pace. Each sentence adds a little more detail " ++
  "so that the summarizer and the grouping logic have realistic material " ++
  "to work with. The estimated speaking time of this text is long enough " ++
  "to form at least one episode bucket. No external network request is " ++
  "made to produce it, and no provider quota is consumed at any point."

/-- Fixture fetcher: every URL resolves to the mock article. -/
def mockFetch : String → FetchResult := fun _ => .ok mockArticle

/-- Modelled from the spec: the Citation Collector stage.  In mock mode the
fixture URL list is returned with zero usage and no provider call; otherwise
the multi-pass merge runs over the search oracle's per-pass citations.
(Early stopping only avoids provider calls; it does not change the merged
list, so the URL list is computed over all passes.) -/
def searchStage (cfg : Settings) (search : Nat → List String × Usage) :
    List String × Usage :=
  if cfg.mock_mode then (mockUrls, zeroUsage)
  else
    (collectUrls cfg.target_unique_urls
       ((List.range cfg.max_search_attempts).map (fun i => (search i).1)),
     ((List.range cfg.max_search_attempts).map (fun i => (search i).2)).foldl
       addUsage zeroUsage)

/-- Modelled from the spec: the Fetch & Summarize stage.  In mock mode the
fixture fetcher replaces the HTTP collaborator and no external call is
counted; otherwise one external call per URL. -/
def fetchStage (cfg : Settings) (fetch : String → FetchResult)
    (urls : List String) : List Segment × Usage :=
  if cfg.mock_mode then (processUrls cfg mockFetch urls, zeroUsage)
  else (processUrls cfg fetch urls, ⟨urls.length, 0, 0⟩)

/-- Modelled from the spec: `run_pipeline.py` is not in src/.  Sequence the
three stages for one topic and aggregate usage. -/
def runPipeline (cfg : Settings) (search : Nat → List String × Usage)
    (fetch : String → FetchResult) (generate : Nat → ProviderResponse × Usage)
    (topic slug : String) (requested_days : ℚ) : TopicPayload × Usage :=
  let s1 := searchStage cfg search
  let s2 := fetchStage cfg fetch s1.1
  let s3 := composeRun cfg generate topic slug requested_days s2.1
  (s3.1, addUsage (addUsage s1.2 s2.2) s3.2)

/-- Schema validity of a produced course manifest: at least one episode,
derived counts and totals consistent, contiguous episode numbers starting at
1, and well-formed episode content. -/
def validManifest (cfg : Settings) (p : TopicPayload) : Prop :=
  p.episodes ≠ [] ∧
  p.episode_count = p.episodes.length ∧
  p.total_minutes = (p.episodes.map (fun e => e.duration_minutes)).sum ∧
  p.episodes.map (fun e => e.episode_number) = List.range' 1 p.episodes.length ∧
  ∀ e ∈ p.episodes, e.title ≠ "" ∧ e.script ≠ "" ∧ e.quiz.length = cfg.quiz_length

/-! ## Concrete fixtures used by witnesses and counterexamples -/

/-- Concrete fetched segment: 1600 words, ten estimated minutes at the
default speaking rate. -/
def exSegA : Segment := ⟨"https://a.example/1", 1600, "summary a", "text about topic a", none⟩

/-- Concrete fetched segment: 6400 words, forty estimated minutes. -/
def exSegB : Segment := ⟨"https://a.example/2", 6400, "summary b", "text about topic b", none⟩

/-- Concrete fetched segment: 4800 words, thirty estimated minutes. -/
def exSegC : Segment := ⟨"https://a.example/3", 4800, "summary c", "text about topic c", none⟩

/-- Concrete fetched segment: 4800 words, thirty estimated minutes. -/
def exSegD : Segment := ⟨"https://a.example/4", 4800, "summary d", "text about topic d", none⟩

/-- Script provider oracle that always fails to produce usable JSON. -/
def exProvider : Nat → ProviderResponse × Usage :=
  fun _ => (ProviderResponse.missing, zeroUsage)

/-- Default settings with a 1.5 content multiplier (three content days for a
two-day request). -/
def exCfg : Settings := { defaultSettings with content_multiplier := 3 / 2 }

/-- Concrete manifest produced by the Script Composer for a two-day request
over the four fixture segments. -/
def exManifest : TopicPayload :=
  (composeRun exCfg exProvider "Machine Learning" "machine-learning" 2
    [exSegA, exSegB, exSegC, exSegD]).1

/-! ## C1: manifest field set -/

/-- All JSON keys a serialized `TopicPayload` may carry. -/
def manifestKeysAll : List String :=
  ["topic", "slug", "requested_days", "content_days", "episode_count",
   "total_minutes", "audio_enabled", "episodes", "course_url", "tts_file"]

/-- The JSON keys every serialized `TopicPayload` carries. -/
def manifestKeysRequired : List String :=
  ["topic", "slug", "requested_days", "content_days", "episode_count",
   "total_minutes", "audio_enabled", "episodes"]

/-- All JSON keys a serialized `Episode` may carry. -/
def episodeKeysAll : List String :=
  ["episode_number", "title", "duration_minutes", "script", "difficulty",
   "quiz", "audio_file"]

/-- The JSON keys every serialized `Episode` carries. -/
def episodeKeysRequired : List String :=
  ["episode_number", "title", "duration_minutes", "script", "difficulty", "quiz"]

/-- C1 counterexample: the spec's claimed manifest field set includes `usage`,
but a manifest produced by the Script Composer carries no `usage` field (and
the `TopicPayload` contract declares none). -/
theorem c1_manifest_usage_key_counterexample :
    "usage" ∈ specManifestKeys true ∧ "usage" ∉ exManifest.jsonKeys := by
  constructor
  · decide
  · simp [exManifest, composeRun, TopicPayload.jsonKeys]

/-- C1 (amended): every course manifest is a JSON object whose fields are
exactly the `TopicPayload` interface fields — the eight required fields
`topic`, `slug`, `requested_days`, `content_days`, `episode_count`,
`total_minutes`, `audio_enabled`, `episodes`, plus optional `course_url` and
optional `tts_file`; each episode carries exactly `episode_number`, `title`,
`duration_minutes`, `script`, `difficulty`, `quiz` plus optional
`audio_file`.  No manifest carries a `usage` field. -/
theorem c1_manifest_keys_exact (p : TopicPayload) :
    (∀ k ∈ manifestKeysRequired, k ∈ p.jsonKeys) ∧
    p.jsonKeys ⊆ manifestKeysAll ∧
    "usage" ∉ p.jsonKeys ∧
    (∀ e ∈ p.episodes,
      (∀ k ∈ episodeKeysRequired, k ∈ e.jsonKeys) ∧
      e.jsonKeys ⊆ episodeKeysAll) := by
  obtain ⟨_, _, _, _, _, _, _, eps, cu, tf⟩ := p
  refine ⟨?_, ?_, ?_, ?_⟩
  · cases cu <;> cases tf <;>
      simp [TopicPayload.jsonKeys, manifestKeysRequired]
  · cases cu <;> cases tf <;>
      simp [TopicPayload.jsonKeys, manifestKeysAll, List.append_subset,
        List.cons_subset, List.nil_subset]
  · cases cu <;> cases tf <;> simp [TopicPayload.jsonKeys]
  · intro e _
    obtain ⟨_, _, _, _, _, _, af⟩ := e
    constructor
    · cases af <;> simp [Episode.jsonKeys, episodeKeysRequired]
    · cases af <;>
        simp [Episode.jsonKeys, episodeKeysAll, List.append_subset,
          List.cons_subset, List.nil_subset]

/-- C1 witness: the amended key theorem evaluated on the concrete composed
manifest. -/
theorem c1_manifest_keys_exact_witness :
    "episodes" ∈ exManifest.jsonKeys ∧ "usage" ∉ exManifest.jsonKeys :=
  ⟨(c1_manifest_keys_exact exManifest).1 "episodes" (by decide),
   (c1_manifest_keys_exact exManifest).2.2.1⟩

/-! ## C10: handleGenerateCourse guards and loading flag -/

/-- C10: `handleGenerateCourse` throws and issues no plan-creation request
whenever no user is signed in or any of the suggested topic, duration value,
or duration unit is unset; and whenever a `createPlan` call is issued — be it
resolved or rejected — the `courseLoading` flag is `false` once the handler
completes. -/
theorem c10_generate_course_guards (freshId apiBase : String)
    (cp : PlanPayload → Except String TopicPayload) (st : AppState) :
    (st.user = none ∨ st.suggestedTopic = none ∨ st.suggestedDurationValue = none ∨
        st.suggestedDurationUnit = none →
      (handleGenerateCourse freshId apiBase cp st).thrown.isSome = true ∧
      (handleGenerateCourse freshId apiBase cp st).request = none) ∧
    (∀ p, (handleGenerateCourse freshId apiBase cp st).request = some p →
      (handleGenerateCourse freshId apiBase cp st).finalState.courseLoading = false) := by
  obtain ⟨user, stopic, sval, sunit, lc, ca, load⟩ := st
  constructor
  · intro h
    cases user with
    | none => simp [handleGenerateCourse]
    | some u =>
      cases stopic <;> cases sval <;> cases sunit <;>
        simp_all [handleGenerateCourse]
  · intro p
    cases user with
    | none => simp [handleGenerateCourse]
    | some u =>
      cases stopic <;> cases sval <;> cases sunit <;>
        simp [handleGenerateCourse]
      rename_i t v du
      by_cases hg : t = "" ∨ v = 0
      · simp [hg]
      · simp only [hg, if_false]
        cases cp ⟨u.email, t, v, du⟩ <;> simp [handlePlanSaved]

/-- C10 witness: with no signed-in user the handler throws and issues no
request; with a signed-in user, a set topic, value and unit, and a rejecting
`createPlan`, the request is issued and `courseLoading` ends `false`. -/
theorem c10_generate_course_guards_witness :
    ((handleGenerateCourse "id" "base" (fun _ => Except.error "boom")
        ⟨none, some "Topic", some 5, some DurationUnit.days, none, none, false⟩).thrown.isSome
      = true ∧
     (handleGenerateCourse "id" "base" (fun _ => Except.error "boom")
        ⟨none, some "Topic", some 5, some DurationUnit.days, none, none, false⟩).request
      = none) ∧
    (handleGenerateCourse "id" "base" (fun _ => Except.error "boom")
        ⟨some ⟨"Ada", "ada@example.com", []⟩, some "Topic", some 5, some DurationUnit.days,
         none, none, false⟩).finalState.courseLoading = false :=
  ⟨(c10_generate_course_guards "id" "base" (fun _ => Except.error "boom")
      ⟨none, some "Topic", some 5, some DurationUnit.days, none, none, false⟩).1
      (Or.inl rfl),
   (c10_generate_course_guards "id" "base" (fun _ => Except.error "boom")
      ⟨some ⟨"Ada", "ada@example.com", []⟩, some "Topic", some 5, some DurationUnit.days,
       none, none, false⟩).2
      ⟨"ada@example.com", "Topic", 5, DurationUnit.days⟩ rfl⟩

/-! ## C9: handlePlanSaved topic-list update -/

/-- Minimal concrete topic payload with a given topic name and slug. -/
def mkTopic (name slug : String) : TopicPayload :=
  ⟨name, slug, 1, 1, 0, 0, false, [], none, none⟩

/-- Signed-in state whose stored topics already contain two entries sharing
the slug `"a"`. -/
def stDup : AppState :=
  ⟨some ⟨"Ada", "ada@example.com", [mkTopic "Alpha" "a", mkTopic "Alpha again" "a"]⟩,
   none, none, none, none, none, false⟩

/-- C9 counterexample: from a signed-in state whose topics list already holds
two entries with slug `"a"`, saving a plan with slug `"b"` leaves both —
`handlePlanSaved` only removes entries matching the new slug, so the claim
that after every save the topics list has no two entries with equal slug is
false. -/
theorem c9_plan_saved_dup_counterexample :
    ((handlePlanSaved "id" "base" (mkTopic "Beta" "b") stDup).user.map
        (fun u => decide (u.topics.map (fun e => e.slug)).Nodup)) = some false := by
  decide

/-- C9 (amended): for every signed-in user state, `handlePlanSaved` puts the
newly saved topic at the head of the topics list and removes every
pre-existing entry with the same slug, so the head's slug occurs nowhere in
the tail and the latest-course state equals the newly saved topic; and
provided the pre-save topics list had pairwise-distinct slugs, the post-save
list does too. -/
theorem c9_plan_saved_head_and_dedup (freshId apiBase : String) (t : TopicPayload)
    (st : AppState) (prev : UserProfile) (hu : st.user = some prev) :
    ∃ u', (handlePlanSaved freshId apiBase t st).user = some u' ∧
      u'.topics = t :: prev.topics.filter (fun e => e.slug ≠ t.slug) ∧
      (∀ e ∈ u'.topics.tail, e.slug ≠ t.slug) ∧
      ((prev.topics.map (fun e => e.slug)).Nodup →
        (u'.topics.map (fun e => e.slug)).Nodup) ∧
      (handlePlanSaved freshId apiBase t st).latestCourse = some t := by
  refine ⟨{ prev with topics := t :: prev.topics.filter (fun e => e.slug ≠ t.slug) },
    by simp [handlePlanSaved, hu], rfl, ?_, ?_, by simp [handlePlanSaved]⟩
  · intro e he
    simp only [List.tail_cons] at he
    have := List.of_mem_filter he
    simpa using this
  · intro hnd
    simp only [List.map_cons, List.nodup_cons]
    constructor
    · intro hmem
      obtain ⟨e, he, hslug⟩ := List.mem_map.mp hmem
      have := List.of_mem_filter he
      simp only [decide_eq_true_eq] at this
      exact this hslug
    · have hsub : List.Sublist
          ((prev.topics.filter (fun e => e.slug ≠ t.slug)).map (fun e => e.slug))
          (prev.topics.map (fun e => e.slug)) :=
        List.Sublist.map _ (List.filter_sublist _)
      exact hnd.sublist hsub

/-- Concrete signed-in profile with a single stored topic of slug `"a"`. -/
def profOne : UserProfile := ⟨"Ada", "ada@example.com", [mkTopic "Alpha" "a"]⟩

/-- Concrete signed-in state for the save witness. -/
def stOne : AppState := ⟨some profOne, none, none, none, none, none, false⟩

/-- C9 witness: the amended save theorem evaluated on a concrete signed-in
state with distinct stored slugs. -/
theorem c9_plan_saved_head_and_dedup_witness :
    (handlePlanSaved "id" "base" (mkTopic "Beta" "b") stOne).latestCourse
      = some (mkTopic "Beta" "b") ∧
    (handlePlanSaved "id" "base" (mkTopic "Beta" "b") stOne).user.isSome = true := by
  obtain ⟨u', hu', _, _, _, hlatest⟩ :=
    c9_plan_saved_head_and_dedup "id" "base" (mkTopic "Beta" "b") stOne profOne rfl
  refine ⟨hlatest, ?_⟩
  rw [hu']
  rfl

/-! ## C7: Fetch & Summarize per-URL resilience and ordering -/

/-- C7: Fetch & Summarize returns one Segment per input URL, in an order
mirroring the input URL order; a URL whose fetch fails yields a Segment
carrying the error marker while every other URL is still processed — a
single bad URL never aborts the batch. -/
theorem c7_fetch_per_url (cfg : Settings) (fetch : String → FetchResult)
    (urls pre post : List String) (u : String) (hsplit : urls = pre ++ u :: post) :
    (processUrls cfg fetch urls).length = urls.length ∧
    (processUrls cfg fetch urls).map (fun s => s.url) = urls ∧
    processUrls cfg fetch urls =
      processUrls cfg fetch pre ++ processUrl cfg fetch u :: processUrls cfg fetch post ∧
    (∀ m, fetch u = .failed m →
      (processUrl cfg fetch u).error = some m ∧ (processUrl cfg fetch u).word_count = 0) ∧
    (∀ t, fetch u = .ok t → (processUrl cfg fetch u).error = none) := by
  subst hsplit
  refine ⟨by simp [processUrls], ?_, by simp [processUrls], ?_, ?_⟩
  · have hone : ∀ v, (processUrl cfg fetch v).url = v := by
      intro v
      unfold processUrl
      cases fetch v <;> rfl
    simp [processUrls, Function.comp_def, hone]
  · intro m hm
    simp [processUrl, hm]
  · intro t ht
    simp [processUrl, ht]

/-- C7 witness: a two-URL batch whose second URL fails — the batch still
yields two ordered segments, the failed one marked with the error. -/
theorem c7_fetch_per_url_witness :
    (processUrls defaultSettings
        (fun v => if v = "https://b.example" then .failed "404" else .ok "plain text")
        ["https://a.example", "https://b.example"]).length = 2 ∧
    (processUrl defaultSettings
        (fun v => if v = "https://b.example" then .failed "404" else .ok "plain text")
        "https://b.example").error = some "404" := by
  have h := c7_fetch_per_url defaultSettings
    (fun v => if v = "https://b.example" then .failed "404" else .ok "plain text")
    ["https://a.example", "https://b.example"] ["https://a.example"] []
    "https://b.example" rfl
  exact ⟨h.1, (h.2.2.2.1 "404" rfl).1⟩

/-! ## Grouping and numbering lemmas -/

lemma numberFrom_length (k : Nat) (l : List (List Segment)) :
    (numberFrom k l).length = l.length := by
  induction l generalizing k with
  | nil => rfl
  | cons b bs ih => simp [numberFrom, ih]

lemma numberFrom_map_fst (k : Nat) (l : List (List Segment)) :
    (numberFrom k l).map Prod.fst = List.range' k l.length := by
  induction l generalizing k with
  | nil => rfl
  | cons b bs ih => simp [numberFrom, ih, List.range']

lemma numberFrom_map_snd (k : Nat) (l : List (List Segment)) :
    (numberFrom k l).map Prod.snd = l := by
  induction l generalizing k with
  | nil => rfl
  | cons b bs ih => simp [numberFrom, ih]

/-- Mapping episode numbers over the composed episode list yields the
contiguous range starting at `k`. -/
lemma episodes_map_number (cfg : Settings) (topic : String) (total : Nat)
    (resp : Nat → ProviderResponse) (buckets : List (List Segment)) (k : Nat) :
    ((numberFrom k buckets).map (fun p =>
        composeEpisode cfg topic total p.1 p.2 (resp p.1))).map
        (fun e => e.episode_number)
      = List.range' k buckets.length := by
  rw [List.map_map]
  have hfun : ((fun e => e.episode_number) ∘ fun p : Nat × List Segment =>
      composeEpisode cfg topic total p.1 p.2 (resp p.1)) = Prod.fst := rfl
  rw [hfun, numberFrom_map_fst]

/-- Each grouping step leaves a state with a closed bucket or a live current
bucket. -/
lemma groupStep_progress (minv maxv target wpm : ℚ) (st : GroupSt) (s : Segment) :
    (groupStep minv maxv target wpm st s).closed ≠ [] ∨
    (groupStep minv maxv target wpm st s).cur ≠ [] := by
  simp only [groupStep]
  split_ifs <;> simp

lemma groupFold_progress (minv maxv target wpm : ℚ) :
    ∀ (l : List Segment) (st : GroupSt), (st.closed ≠ [] ∨ st.cur ≠ []) →
      ((l.foldl (groupStep minv maxv target wpm) st).closed ≠ [] ∨
       (l.foldl (groupStep minv maxv target wpm) st).cur ≠ []) := by
  intro l
  induction l with
  | nil => intro st h; exact h
  | cons s rest ih =>
    intro st _
    exact ih _ (groupStep_progress minv maxv target wpm st s)

lemma absorbRemainder_ne_nil (closed : List (List Segment)) (cur : List Segment)
    (h : closed ≠ [] ∨ cur ≠ []) : absorbRemainder closed cur ≠ [] := by
  unfold absorbRemainder
  split_ifs with h1 h2
  · tauto
  · simp
  · simp

/-- Grouping a non-empty segment list yields at least one episode bucket. -/
lemma groupSegments_ne_nil (minv maxv target wpm : ℚ) (segs : List Segment)
    (h : segs ≠ []) : groupSegments minv maxv target wpm segs ≠ [] := by
  obtain ⟨s, rest, rfl⟩ := List.exists_cons_of_ne_nil h
  unfold groupSegments
  refine absorbRemainder_ne_nil _ _ ?_
  rw [List.foldl_cons]
  exact groupFold_progress minv maxv target wpm rest _
    (groupStep_progress minv maxv target wpm ⟨[], [], 0⟩ s)

/-! ## C8: contiguous episode numbering -/

/-- C8: in every manifest the Script Composer produces, the episode numbers
are exactly `1, 2, ..., episode_count`: contiguous, starting at 1, strictly
increasing, with no gaps. -/
theorem c8_episode_numbers_contiguous (cfg : Settings)
    (generate : Nat → ProviderResponse × Usage) (topic slug : String)
    (days : ℚ) (segs : List Segment) :
    ((composeRun cfg generate topic slug days segs).1.episodes).map
        (fun e => e.episode_number) =
      List.range' 1 ((composeRun cfg generate topic slug days segs).1.episodes).length := by
  unfold composeRun
  simp only [List.length_map, numberFrom_length]
  exact episodes_map_number cfg topic _
    (fun i => if cfg.mock_mode then ProviderResponse.missing else (generate i).1) _ 1

/-! ## C4: content-day sizing -/

/-- C4 (amended): every manifest's `content_days` equals
`round(requested_days * content_multiplier)` and its `episode_count` equals
the length of the greedily grouped episode list (at least one episode when
any usable segment exists); `episode_count` is *not* in general within ±1 of
`content_days`. -/
theorem c4_content_days_formula (cfg : Settings)
    (generate : Nat → ProviderResponse × Usage) (topic slug : String)
    (days : ℚ) (segs : List Segment) :
    (composeRun cfg generate topic slug days segs).1.content_days =
      round (days * cfg.content_multiplier) ∧
    (composeRun cfg generate topic slug days segs).1.episode_count =
      (composeRun cfg generate topic slug days segs).1.episodes.length ∧
    (filterSegments cfg.min_segment_words segs ≠ [] →
      1 ≤ (composeRun cfg generate topic slug days segs).1.episode_count) := by
  refine ⟨rfl, ?_, ?_⟩
  · unfold composeRun
    simp [numberFrom_length]
  · intro h
    have hne := groupSegments_ne_nil cfg.episode_min_minutes cfg.episode_max_minutes
      (targetMinutes cfg
        (bucketMinutes cfg.words_per_minute (filterSegments cfg.min_segment_words segs))
        (contentDays days cfg.content_multiplier))
      cfg.words_per_minute _ h
    unfold composeRun
    simp only
    exact Nat.one_le_iff_ne_zero.mpr (fun hlen =>
      hne (List.eq_nil_of_length_eq_zero hlen))

/-! ## C2: duration bounds of non-final episodes -/

lemma bucketMinutes_nil (wpm : ℚ) : bucketMinutes wpm [] = 0 := rfl

lemma bucketMinutes_concat (wpm : ℚ) (b : List Segment) (s : Segment) :
    bucketMinutes wpm (b ++ [s]) = bucketMinutes wpm b + segMinutes wpm s := by
  simp [bucketMinutes]

/-- Invariant carried through the grouping fold: every closed bucket and the
live bucket stay within the configured maximum, and the accumulated-minutes
counter is exact. -/
def GInv (wpm maxv : ℚ) (st : GroupSt) : Prop :=
  (∀ b ∈ st.closed, bucketMinutes wpm b ≤ maxv) ∧
  st.curMin = bucketMinutes wpm st.cur ∧
  (st.cur ≠ [] → st.curMin ≤ maxv)

lemma groupStep_inv (minv maxv target wpm : ℚ) (s : Segment)
    (hs : segMinutes wpm s ≤ maxv) (st : GroupSt) (h : GInv wpm maxv st) :
    GInv wpm maxv (groupStep minv maxv target wpm st s) := by
  obtain ⟨hc, hm, hcur⟩ := h
  have hdich : st.cur = [] ∨ st.curMin + segMinutes wpm s ≤ maxv ∨
      (st.cur ≠ [] ∧ maxv < st.curMin + segMinutes wpm s) := by
    by_cases h1 : st.cur = []
    · exact Or.inl h1
    · rcases le_or_lt (st.curMin + segMinutes wpm s) maxv with h2 | h2
      · exact Or.inr (Or.inl h2)
      · exact Or.inr (Or.inr ⟨h1, h2⟩)
  have hsum : st.cur ≠ [] → st.curMin + segMinutes wpm s ≤ maxv →
      bucketMinutes wpm (st.cur ++ [s]) ≤ maxv := by
    intro _ h2
    rw [bucketMinutes_concat, ← hm]
    exact h2
  have hnilsum : st.cur = [] → bucketMinutes wpm (st.cur ++ [s]) ≤ maxv := by
    intro h0
    rw [h0]
    simpa [bucketMinutes] using hs
  simp only [groupStep]
  split_ifs with h1 h2
  · refine ⟨?_, by simp [bucketMinutes], fun _ => hs⟩
    intro b hb
    rcases List.mem_append.mp hb with hb | hb
    · exact hc b hb
    · rw [List.mem_singleton.mp hb, ← hm]
      exact hcur h1.1
  · refine ⟨?_, by simp [bucketMinutes], by simp⟩
    intro b hb
    rcases List.mem_append.mp hb with hb | hb
    · exact hc b hb
    · rw [List.mem_singleton.mp hb]
      rcases hdich with h0 | h0 | h0
      · exact hnilsum h0
      · rcases eq_or_ne st.cur [] with hn | hn
        · exact hnilsum hn
        · exact hsum hn h0
      · exact absurd h0 h1
  · refine ⟨hc, by rw [bucketMinutes_concat, hm], ?_⟩
    intro _
    show st.curMin + segMinutes wpm s ≤ maxv
    rcases hdich with h0 | h0 | h0
    · have hz : st.curMin = 0 := by rw [hm, h0, bucketMinutes_nil]
      simpa [hz] using hs
    · exact h0
    · exact absurd h0 h1

lemma groupFold_inv (minv maxv target wpm : ℚ) :
    ∀ (l : List Segment) (st : GroupSt), GInv wpm maxv st →
      (∀ s ∈ l, segMinutes wpm s ≤ maxv) →
      GInv wpm maxv (l.foldl (groupStep minv maxv target wpm) st) := by
  intro l
  induction l with
  | nil => intro st h _; exact h
  | cons s rest ih =>
    intro st h hl
    rw [List.foldl_cons]
    exact ih _ (groupStep_inv minv maxv target wpm s (hl s (List.mem_cons_self s rest)) st h)
      (fun v hv => hl v (List.mem_cons_of_mem s hv))

lemma mem_dropLast_absorb (closed : List (List Segment)) (cur b : List Segment)
    (hb : b ∈ (absorbRemainder closed cur).dropLast) : b ∈ closed := by
  unfold absorbRemainder at hb
  split_ifs at hb with h1 h2
  · exact (List.dropLast_sublist closed).subset hb
  · simp at hb
  · rw [List.dropLast_concat] at hb
    exact (List.dropLast_sublist closed).subset hb

/-- Core grouping bound: every bucket except possibly the last stays within
the configured maximum, provided every individual segment does. -/
lemma groupSegments_dropLast_le (minv maxv target wpm : ℚ) (segs : List Segment)
    (hseg : ∀ s ∈ segs, segMinutes wpm s ≤ maxv) :
    ∀ b ∈ (groupSegments minv maxv target wpm segs).dropLast,
      bucketMinutes wpm b ≤ maxv := by
  intro b hb
  have hinv : GInv wpm maxv
      (segs.foldl (groupStep minv maxv target wpm) ⟨[], [], 0⟩) :=
    groupFold_inv minv maxv target wpm segs ⟨[], [], 0⟩
      ⟨by simp, by simp [bucketMinutes], by simp⟩ hseg
  unfold groupSegments at hb
  exact hinv.1 b (mem_dropLast_absorb _ _ _ hb)

lemma dedupByText_subset (l : List Segment) : ∀ s ∈ dedupByText l, s ∈ l := by
  suffices h : ∀ (l acc : List Segment) (s : Segment),
      s ∈ l.foldl (fun acc s =>
        if acc.any (fun v => v.full_text == s.full_text) then acc else acc ++ [s]) acc →
      s ∈ acc ∨ s ∈ l by
    intro s hs
    rcases h l [] s hs with h' | h'
    · simp at h'
    · exact h'
  intro l
  induction l with
  | nil => intro acc s h; exact Or.inl h
  | cons x t ih =>
    intro acc s h
    rw [List.foldl_cons] at h
    rcases ih _ s h with h' | h'
    · split_ifs at h' with hx
      · exact Or.inl h'
      · rcases List.mem_append.mp h' with h'' | h''
        · exact Or.inl h''
        · have hx2 : s = x := by simpa using h''
          exact Or.inr (hx2 ▸ List.mem_cons_self x t)
    · exact Or.inr (List.mem_cons_of_mem x h')

lemma filterSegments_subset (minW : Nat) (segs : List Segment) :
    ∀ s ∈ filterSegments minW segs, s ∈ segs := by
  intro s hs
  exact List.mem_of_mem_filter (dedupByText_subset _ s hs)

/-- C2 (amended): in every manifest the Script Composer produces, every
episode except the last has `duration_minutes ≤ episode_max_minutes`,
provided each individual segment's estimated minutes is at most the maximum;
only the final episode (which absorbs the trailing remainder) may exceed the
maximum.  The lower bound of the original claim does not hold: a bucket
closed early — because adding the next segment would exceed the maximum —
can fall below `episode_min_minutes`. -/
theorem c2_nonfinal_episode_le_max (cfg : Settings)
    (generate : Nat → ProviderResponse × Usage) (topic slug : String)
    (days : ℚ) (segs : List Segment)
    (hseg : ∀ s ∈ segs, segMinutes cfg.words_per_minute s ≤ cfg.episode_max_minutes) :
    ∀ e ∈ ((composeRun cfg generate topic slug days segs).1.episodes).dropLast,
      e.duration_minutes ≤ cfg.episode_max_minutes := by
  intro e he
  unfold composeRun at he
  simp only at he
  rw [← List.map_dropLast] at he
  obtain ⟨p, hp, rfl⟩ := List.mem_map.mp he
  show bucketMinutes cfg.words_per_minute p.2 ≤ cfg.episode_max_minutes
  have hp2 : p.2 ∈ (groupSegments cfg.episode_min_minutes cfg.episode_max_minutes
      (targetMinutes cfg
        (bucketMinutes cfg.words_per_minute (filterSegments cfg.min_segment_words segs))
        (contentDays days cfg.content_multiplier))
      cfg.words_per_minute (filterSegments cfg.min_segment_words segs)).dropLast := by
    have := List.mem_map_of_mem Prod.snd hp
    rw [List.map_dropLast, numberFrom_map_snd] at this
    exact this
  exact groupSegments_dropLast_le _ _ _ _ _
    (fun s hs => hseg s (filterSegments_subset _ _ s hs)) p.2 hp2

/-- Grouping of the fixture segments at the fixture target of 110/3 minutes:
the first bucket is closed early at ten minutes because adding the 40-minute
segment would exceed the 45-minute maximum, and the final bucket absorbs the
trailing segment. -/
lemma exGroup : groupSegments 20 45 (110 / 3) 160 [exSegA, exSegB, exSegC, exSegD] =
    [[exSegA], [exSegB], [exSegC, exSegD]] := by
  have h1 : groupStep 20 45 (110 / 3) 160 ⟨[], [], 0⟩ exSegA = ⟨[], [exSegA], 10⟩ := by
    simp only [groupStep, segMinutes, exSegA]
    norm_num
  have h2 : groupStep 20 45 (110 / 3) 160 ⟨[], [exSegA], 10⟩ exSegB =
      ⟨[[exSegA]], [exSegB], 40⟩ := by
    simp only [groupStep, segMinutes, exSegB]
    norm_num
  have h3 : groupStep 20 45 (110 / 3) 160 ⟨[[exSegA]], [exSegB], 40⟩ exSegC =
      ⟨[[exSegA], [exSegB]], [exSegC], 30⟩ := by
    simp only [groupStep, segMinutes, exSegC]
    norm_num
  have h4 : groupStep 20 45 (110 / 3) 160 ⟨[[exSegA], [exSegB]], [exSegC], 30⟩ exSegD =
      ⟨[[exSegA], [exSegB], [exSegC]], [exSegD], 30⟩ := by
    simp only [groupStep, segMinutes, exSegD]
    norm_num
  unfold groupSegments
  rw [List.foldl_cons, h1, List.foldl_cons, h2, List.foldl_cons, h3,
    List.foldl_cons, h4, List.foldl_nil]
  simp [absorbRemainder]

/-- Concrete evaluation of the fixture manifest's episode list. -/
lemma exManifest_episodes : exManifest.episodes =
    [composeEpisode exCfg "Machine Learning" 3 1 [exSegA] ProviderResponse.missing,
     composeEpisode exCfg "Machine Learning" 3 2 [exSegB] ProviderResponse.missing,
     composeEpisode exCfg "Machine Learning" 3 3 [exSegC, exSegD]
       ProviderResponse.missing] := by
  have hfil : filterSegments exCfg.min_segment_words [exSegA, exSegB, exSegC, exSegD] =
      [exSegA, exSegB, exSegC, exSegD] := by decide
  have htot : bucketMinutes exCfg.words_per_minute [exSegA, exSegB, exSegC, exSegD]
      = 110 := by
    norm_num [bucketMinutes, segMinutes, exSegA, exSegB, exSegC, exSegD, exCfg,
      defaultSettings]
  have hcd : contentDays 2 exCfg.content_multiplier = 3 := by
    norm_num [contentDays, exCfg, defaultSettings, round_eq]
  have htgt : targetMinutes exCfg 110 3 = 110 / 3 := by
    norm_num [targetMinutes, exCfg, defaultSettings, min_def, max_def]
  unfold exManifest composeRun
  dsimp only
  rw [hfil, htot, hcd, htgt]
  have hminb : exCfg.episode_min_minutes = 20 := rfl
  have hmaxb : exCfg.episode_max_minutes = 45 := rfl
  have hwpm : exCfg.words_per_minute = 160 := rfl
  rw [hminb, hmaxb, hwpm, exGroup]
  simp [numberFrom, exProvider, exCfg, defaultSettings]

/-- C2 counterexample: the manifest composed from the fixture segments has a
non-final episode of ten minutes, below the configured 20-minute minimum —
the bucket was closed early because adding the next segment would have
exceeded the 45-minute maximum.  The original claim's lower bound is
therefore false. -/
theorem c2_min_bound_counterexample :
    ¬ (∀ e ∈ exManifest.episodes.dropLast,
        exCfg.episode_min_minutes ≤ e.duration_minutes ∧
        e.duration_minutes ≤ exCfg.episode_max_minutes) := by
  intro hall
  have hmem : composeEpisode exCfg "Machine Learning" 3 1 [exSegA]
      ProviderResponse.missing ∈ exManifest.episodes.dropLast := by
    rw [exManifest_episodes]
    simp
  have hdur : (composeEpisode exCfg "Machine Learning" 3 1 [exSegA]
      ProviderResponse.missing).duration_minutes = 10 := by
    norm_num [composeEpisode, bucketMinutes, segMinutes, exSegA, exCfg, defaultSettings]
  have h := (hall _ hmem).1
  rw [hdur] at h
  have hminb : exCfg.episode_min_minutes = 20 := rfl
  rw [hminb] at h
  norm_num at h

/-- C2 witness: the amended upper-bound theorem evaluated on the fixture run
at its first (non-final) episode. -/
theorem c2_nonfinal_episode_le_max_witness :
    (composeEpisode exCfg "Machine Learning" 3 1 [exSegA]
      ProviderResponse.missing).duration_minutes ≤ exCfg.episode_max_minutes := by
  refine c2_nonfinal_episode_le_max exCfg exProvider "Machine Learning"
    "machine-learning" 2 [exSegA, exSegB, exSegC, exSegD] ?_ _ ?_
  · intro s hs
    fin_cases hs <;>
      norm_num [segMinutes, exSegA, exSegB, exSegC, exSegD, exCfg, defaultSettings]
  · show composeEpisode exCfg "Machine Learning" 3 1 [exSegA] ProviderResponse.missing ∈
      exManifest.episodes.dropLast
    rw [exManifest_episodes]
    simp

/-! ## C4: counterexample to the plus-or-minus-one law -/

/-- Manifest for a five-day request over a single thirty-minute segment at
the default settings: `content_days` is 10 but only one episode exists. -/
def exManifestC4 : TopicPayload :=
  (composeRun defaultSettings exProvider "Machine Learning" "machine-learning" 5
    [exSegC]).1

/-- C4 counterexample: a run whose `content_days` is 10 while its
`episode_count` is 1 — the greedy grouping produces as many episodes as the
segments allow, which can differ from `content_days` by far more than 1. -/
theorem c4_plus_minus_one_counterexample :
    exManifestC4.content_days = 10 ∧ exManifestC4.episode_count = 1 ∧
    ¬ (exManifestC4.content_days - (exManifestC4.episode_count : Int)).natAbs ≤ 1 := by
  have hfil : filterSegments defaultSettings.min_segment_words [exSegC] = [exSegC] := by
    decide
  have htot : bucketMinutes defaultSettings.words_per_minute [exSegC] = 30 := by
    norm_num [bucketMinutes, segMinutes, exSegC, defaultSettings]
  have hcd : contentDays 5 defaultSettings.content_multiplier = 10 := by
    norm_num [contentDays, defaultSettings, round_eq]
  have htgt : targetMinutes defaultSettings 30 10 = 20 := by
    norm_num [targetMinutes, defaultSettings, min_def, max_def]
  have hstep : groupStep 20 45 20 160 ⟨[], [], 0⟩ exSegC = ⟨[[exSegC]], [], 0⟩ := by
    simp only [groupStep, segMinutes, exSegC]
    norm_num
  have hgrp : groupSegments 20 45 20 160 [exSegC] = [[exSegC]] := by
    unfold groupSegments
    rw [List.foldl_cons, hstep, List.foldl_nil]
    simp [absorbRemainder]
  have hman : exManifestC4.content_days = 10 ∧ exManifestC4.episode_count = 1 := by
    unfold exManifestC4 composeRun
    dsimp only
    rw [hfil, htot, hcd, htgt]
    have hminb : defaultSettings.episode_min_minutes = 20 := rfl
    have hmaxb : defaultSettings.episode_max_minutes = 45 := rfl
    have hwpm : defaultSettings.words_per_minute = 160 := rfl
    rw [hminb, hmaxb, hwpm, hgrp]
    simp
  refine ⟨hman.1, hman.2, ?_⟩
  rw [hman.1, hman.2]
  decide

/-- C4 witness: the amended sizing theorem evaluated on the one-segment
five-day run. -/
theorem c4_content_days_formula_witness :
    exManifestC4.content_days = round ((5 : ℚ) * defaultSettings.content_multiplier) ∧
    1 ≤ exManifestC4.episode_count :=
  ⟨(c4_content_days_formula defaultSettings exProvider "Machine Learning"
      "machine-learning" 5 [exSegC]).1,
   (c4_content_days_formula defaultSettings exProvider "Machine Learning"
      "machine-learning" 5 [exSegC]).2.2 (by decide)⟩

/-! ## C5: collector uniqueness, first-seen order, and cap -/

lemma firstPos_append_self (xs rest : List String) (u : String) (h : u ∉ xs) :
    firstPos (xs ++ u :: rest) u = xs.length := by
  induction xs with
  | nil => simp [firstPos, List.takeWhile]
  | cons a t ih =>
    have ha : a ≠ u := fun e => h (e ▸ List.mem_cons_self a t)
    have ht : u ∉ t := fun hu => h (List.mem_cons_of_mem a hu)
    have hd : decide (a ≠ u) = true := by simp [ha]
    simp only [firstPos, List.cons_append, List.takeWhile_cons, hd, if_true,
      List.length_cons] at ih ⊢
    rw [ih ht]

lemma firstPos_lt_of_mem (xs ys : List String) (a : String) (h : a ∈ xs) :
    firstPos (xs ++ ys) a < xs.length := by
  induction xs with
  | nil => cases h
  | cons b t ih =>
    by_cases hb : b = a
    · subst hb
      simp [firstPos, List.takeWhile]
    · have ht : a ∈ t := by
        rcases List.mem_cons.mp h with h' | h'
        · exact absurd h'.symm hb
        · exact h'
      have hlt := ih ht
      have hd : decide (b ≠ a) = true := by simp [hb]
      simp only [firstPos, List.cons_append, List.takeWhile_cons, hd, if_true,
        List.length_cons] at hlt ⊢
      exact Nat.succ_lt_succ hlt

/-- Fold invariant of the capped first-seen merge: the accumulator stays
duplicate-free, within the cap, drawn from the stream, and sorted by
first-occurrence position; and while the cap is unreached it contains every
processed URL. -/
lemma capInsert_fold_inv (t : Nat) (stream : List String) :
    ∀ (rest processed acc : List String),
      stream = processed ++ rest →
      acc.Nodup →
      acc.length ≤ t →
      (∀ a ∈ acc, a ∈ processed) →
      acc.Pairwise (fun a b => firstPos stream a < firstPos stream b) →
      (t ≤ acc.length ∨ ∀ v ∈ processed, v ∈ acc) →
      ((rest.foldl (capInsert t) acc).Nodup ∧
       (rest.foldl (capInsert t) acc).length ≤ t ∧
       (∀ a ∈ rest.foldl (capInsert t) acc, a ∈ stream) ∧
       (rest.foldl (capInsert t) acc).Pairwise
         (fun a b => firstPos stream a < firstPos stream b)) := by
  intro rest
  induction rest with
  | nil =>
    intro processed acc hs hnd hlen hmem hpw _
    refine ⟨hnd, hlen, ?_, hpw⟩
    intro a ha
    rw [hs]
    exact List.mem_append_left _ (hmem a ha)
  | cons u rest ih =>
    intro processed acc hs hnd hlen hmem hpw hcap
    rw [List.foldl_cons]
    have hs' : stream = (processed ++ [u]) ++ rest := by
      rw [hs, List.append_assoc]
      rfl
    by_cases h1 : t ≤ acc.length
    · have hstep : capInsert t acc u = acc := by simp [capInsert, h1]
      rw [hstep]
      exact ih (processed ++ [u]) acc hs' hnd hlen
        (fun a ha => List.mem_append_left _ (hmem a ha)) hpw (Or.inl h1)
    · have hsub : ∀ v ∈ processed, v ∈ acc := hcap.resolve_left h1
      by_cases h2 : u ∈ acc
      · have hstep : capInsert t acc u = acc := by simp [capInsert, h1, h2]
        rw [hstep]
        refine ih (processed ++ [u]) acc hs' hnd hlen
          (fun a ha => List.mem_append_left _ (hmem a ha)) hpw (Or.inr ?_)
        intro v hv
        rcases List.mem_append.mp hv with hv | hv
        · exact hsub v hv
        · rw [List.mem_singleton.mp hv]
          exact h2
      · have hstep : capInsert t acc u = acc ++ [u] := by simp [capInsert, h1, h2]
        rw [hstep]
        have hup : u ∉ processed := fun hu => h2 (hsub u hu)
        have hnd' : (acc ++ [u]).Nodup := by
          rw [List.nodup_append]
          exact ⟨hnd, List.nodup_singleton u,
            fun a ha hb => h2 ((List.mem_singleton.mp hb) ▸ ha)⟩
        have hlen' : (acc ++ [u]).length ≤ t := by
          rw [List.length_append, List.length_singleton]
          omega
        have hmem' : ∀ a ∈ acc ++ [u], a ∈ processed ++ [u] := by
          intro a ha
          rcases List.mem_append.mp ha with ha | ha
          · exact List.mem_append_left _ (hmem a ha)
          · exact List.mem_append_right _ ha
        have hpw' : (acc ++ [u]).Pairwise
            (fun a b => firstPos stream a < firstPos stream b) := by
          rw [List.pairwise_append]
          refine ⟨hpw, List.pairwise_singleton _ _, ?_⟩
          intro a ha b hb
          rw [List.mem_singleton.mp hb]
          have h3 : firstPos stream a < processed.length := by
            rw [hs]
            exact firstPos_lt_of_mem processed (u :: rest) a (hmem a ha)
          have h4 : firstPos stream u = processed.length := by
            rw [hs]
            exact firstPos_append_self processed rest u hup
          omega
        have hcap' : t ≤ (acc ++ [u]).length ∨
            ∀ v ∈ processed ++ [u], v ∈ acc ++ [u] := by
          by_cases h5 : t ≤ (acc ++ [u]).length
          · exact Or.inl h5
          · refine Or.inr ?_
            intro v hv
            rcases List.mem_append.mp hv with hv | hv
            · exact List.mem_append_left _ (hsub v hv)
            · exact List.mem_append_right _ hv
        exact ih (processed ++ [u]) (acc ++ [u]) hs' hnd' hlen' hmem' hpw' hcap'

/-- C5: the collected URL list holds each URL at most once, never exceeds
`target` entries (in particular its growth stops the moment the target is
reached mid-pass), draws only from the per-pass citation stream, and is
sorted by first-seen position in that stream — first-seen insertion order is
preserved across passes. -/
theorem c5_collector_unique_ordered_capped (target : Nat)
    (passes : List (List String)) :
    (collectUrls target passes).Nodup ∧
    (collectUrls target passes).length ≤ target ∧
    (∀ u ∈ collectUrls target passes, u ∈ passes.flatten) ∧
    (collectUrls target passes).Pairwise
      (fun a b => firstPos passes.flatten a < firstPos passes.flatten b) := by
  have h := capInsert_fold_inv target passes.flatten passes.flatten [] []
    rfl List.nodup_nil (Nat.zero_le _) (by simp) List.Pairwise.nil
    (Or.inr (by simp))
  simpa [collectUrls] using h

/-- C5 witness: the collector invariants evaluated on a concrete two-pass
stream with a duplicate and a cap of two. -/
theorem c5_collector_witness :
    "a" ∈ ([["a", "b", "a"], ["c"]] : List (List String)).flatten ∧
    (collectUrls 2 [["a", "b", "a"], ["c"]]).length ≤ 2 :=
  ⟨(c5_collector_unique_ordered_capped 2 [["a", "b", "a"], ["c"]]).2.2.1 "a"
      (by decide),
   (c5_collector_unique_ordered_capped 2 [["a", "b", "a"], ["c"]]).2.1⟩

/-! ## C3: deterministic fallback on provider failure -/

lemma cleanForTTS_append (a b : String) :
    cleanForTTS (a ++ b) = cleanForTTS a ++ cleanForTTS b := by
  obtain ⟨la⟩ := a
  obtain ⟨lb⟩ := b
  show String.mk ((la ++ lb).filter (fun c => !(mathChars.contains c))) =
    String.mk (la.filter (fun c => !(mathChars.contains c)) ++
      lb.filter (fun c => !(mathChars.contains c)))
  rw [List.filter_append]

lemma cleanForTTS_of_clean (s : String) (h : ∀ c ∈ s.data, c ∉ mathChars) :
    cleanForTTS s = s := by
  obtain ⟨l⟩ := s
  show String.mk (l.filter (fun c => !(mathChars.contains c))) = String.mk l
  congr 1
  apply List.filter_eq_self.mpr
  intro c hc
  simpa using h c hc

lemma length_clean_append (a b : String) :
    (cleanForTTS (a ++ b)).length = (cleanForTTS a).length + (cleanForTTS b).length := by
  rw [cleanForTTS_append, String.length_append]

/-- The cleaned fallback script is never empty: it always starts with the
fixed welcome words. -/
lemma fallbackScript_clean_ne_empty (topic : String) (idx : Nat)
    (bucket : List Segment) : cleanForTTS (fallbackScript topic idx bucket) ≠ "" := by
  intro h
  have hlen : (cleanForTTS (fallbackScript topic idx bucket)).length = 0 := by
    rw [h]
    rfl
  simp only [fallbackScript, fsIntro] at hlen
  rw [length_clean_append, length_clean_append, length_clean_append] at hlen
  have hw : (cleanForTTS "Welcome to episode ").length = 19 := by decide
  omega

/-- The fallback title is never empty: it always ends with the fixed episode
marker. -/
lemma fallbackTitle_ne_empty (topic : String) (idx : Nat) :
    fallbackTitle topic idx ≠ "" := by
  intro h
  have hlen : (fallbackTitle topic idx).length = 0 := by
    rw [h]
    rfl
  simp only [fallbackTitle, String.length_append] at hlen
  have h11 : (" - Episode " : String).length = 11 := by decide
  rw [h11] at hlen
  omega

lemma placeholderQuiz_length (n : Nat) : (placeholderQuiz n).length = n := by
  simp [placeholderQuiz]

/-- A missing, malformed, or JSON-invalid response always resolves to the
deterministic fallback content. -/
lemma resolveTriple_invalid (qlen : Nat) (topic : String) (idx : Nat)
    (bucket : List Segment) (r : ProviderResponse)
    (h : respValid qlen r = false) :
    resolveTriple qlen topic idx bucket r = fallbackTriple qlen topic idx bucket := by
  cases r with
  | missing => rfl
  | malformed raw => rfl
  | json t s q =>
    have hq : q.length ≠ qlen := by simpa [respValid] using h
    simp [resolveTriple, hq, fallbackTriple]

/-- C3: whenever the script-generation provider's response for an episode is
missing, malformed, or fails JSON validation, the composed episode is the
deterministic template: its title is the topic name plus the episode index,
its quiz is the fixed placeholder set of `quiz_length` generic questions,
and its script is non-empty and contains the topic name.  The run never
fails: `composeEpisode` is total. -/
theorem c3_fallback_on_invalid_response (cfg : Settings) (topic : String)
    (total idx : Nat) (bucket : List Segment) (r : ProviderResponse)
    (hr : respValid cfg.quiz_length r = false)
    (htopic : ∀ c ∈ topic.data, c ∉ mathChars) :
    (composeEpisode cfg topic total idx bucket r).title = fallbackTitle topic idx ∧
    (composeEpisode cfg topic total idx bucket r).title ≠ "" ∧
    (composeEpisode cfg topic total idx bucket r).quiz =
      placeholderQuiz cfg.quiz_length ∧
    (composeEpisode cfg topic total idx bucket r).quiz.length = cfg.quiz_length ∧
    (composeEpisode cfg topic total idx bucket r).script ≠ "" ∧
    (∃ p q, (composeEpisode cfg topic total idx bucket r).script =
      p ++ (topic ++ q)) := by
  have hres := resolveTriple_invalid cfg.quiz_length topic idx bucket r hr
  have htitle : (composeEpisode cfg topic total idx bucket r).title =
      fallbackTitle topic idx := by
    show (resolveTriple cfg.quiz_length topic idx bucket r).1 = fallbackTitle topic idx
    rw [hres]
    rfl
  have hquiz : (composeEpisode cfg topic total idx bucket r).quiz =
      placeholderQuiz cfg.quiz_length := by
    show (resolveTriple cfg.quiz_length topic idx bucket r).2.2 =
      placeholderQuiz cfg.quiz_length
    rw [hres]
    rfl
  have hscript : (composeEpisode cfg topic total idx bucket r).script =
      cleanForTTS (fallbackScript topic idx bucket) := by
    show cleanForTTS (resolveTriple cfg.quiz_length topic idx bucket r).2.1 =
      cleanForTTS (fallbackScript topic idx bucket)
    rw [hres]
    rfl
  refine ⟨htitle, htitle ▸ fallbackTitle_ne_empty topic idx, hquiz,
    by rw [hquiz, placeholderQuiz_length], ?_, ?_⟩
  · rw [hscript]
    exact fallbackScript_clean_ne_empty topic idx bucket
  · refine ⟨cleanForTTS (fsIntro idx), cleanForTTS (fsBody bucket), ?_⟩
    rw [hscript]
    show cleanForTTS (fsIntro idx ++ (topic ++ fsBody bucket)) = _
    rw [cleanForTTS_append, cleanForTTS_append, cleanForTTS_of_clean topic htopic]

/-- C3 witness: a malformed provider response for the first fixture bucket
yields the deterministic template episode. -/
theorem c3_fallback_on_invalid_response_witness :
    (composeEpisode defaultSettings "Machine Learning" 3 1 [exSegA]
        (ProviderResponse.malformed "not json")).title =
      fallbackTitle "Machine Learning" 1 ∧
    (composeEpisode defaultSettings "Machine Learning" 3 1 [exSegA]
        (ProviderResponse.malformed "not json")).quiz =
      placeholderQuiz defaultSettings.quiz_length ∧
    (composeEpisode defaultSettings "Machine Learning" 3 1 [exSegA]
        (ProviderResponse.malformed "not json")).script ≠ "" :=
  ⟨(c3_fallback_on_invalid_response defaultSettings "Machine Learning" 3 1 [exSegA]
      (ProviderResponse.malformed "not json") rfl (by decide)).1,
   (c3_fallback_on_invalid_response defaultSettings "Machine Learning" 3 1 [exSegA]
      (ProviderResponse.malformed "not json") rfl (by decide)).2.2.1,
   (c3_fallback_on_invalid_response defaultSettings "Machine Learning" 3 1 [exSegA]
      (ProviderResponse.malformed "not json") rfl (by decide)).2.2.2.2.1⟩

/-! ## C6: mock mode -/

/-- Episodes synthesized from a missing response (the mock fixture path) are
well-formed: non-empty title and script, quiz of the configured length. -/
lemma composeEpisode_missing_wellformed (cfg : Settings) (topic : String)
    (total idx : Nat) (bucket : List Segment) :
    (composeEpisode cfg topic total idx bucket ProviderResponse.missing).title ≠ "" ∧
    (composeEpisode cfg topic total idx bucket ProviderResponse.missing).script ≠ "" ∧
    (composeEpisode cfg topic total idx bucket ProviderResponse.missing).quiz.length =
      cfg.quiz_length := by
  have hres := resolveTriple_invalid cfg.quiz_length topic idx bucket
    ProviderResponse.missing rfl
  refine ⟨?_, ?_, ?_⟩
  · show (resolveTriple cfg.quiz_length topic idx bucket ProviderResponse.missing).1 ≠ ""
    rw [hres]
    exact fallbackTitle_ne_empty topic idx
  · show cleanForTTS
      (resolveTriple cfg.quiz_length topic idx bucket ProviderResponse.missing).2.1 ≠ ""
    rw [hres]
    exact fallbackScript_clean_ne_empty topic idx bucket
  · show (resolveTriple cfg.quiz_length topic idx bucket
      ProviderResponse.missing).2.2.length = cfg.quiz_length
    rw [hres]
    exact placeholderQuiz_length _

/-- In mock mode the composed manifest is schema-valid whenever any usable
segment exists. -/
lemma composeRun_valid_of_mock (cfg : Settings)
    (generate : Nat → ProviderResponse × Usage) (topic slug : String) (days : ℚ)
    (segs : List Segment) (hm : cfg.mock_mode = true)
    (hne : filterSegments cfg.min_segment_words segs ≠ []) :
    validManifest cfg (composeRun cfg generate topic slug days segs).1 := by
  have hb := groupSegments_ne_nil cfg.episode_min_minutes cfg.episode_max_minutes
    (targetMinutes cfg
      (bucketMinutes cfg.words_per_minute (filterSegments cfg.min_segment_words segs))
      (contentDays days cfg.content_multiplier))
    cfg.words_per_minute _ hne
  unfold composeRun validManifest
  dsimp only
  simp only [hm, if_true, List.length_map, numberFrom_length]
  refine ⟨?_, trivial, trivial, ?_, ?_⟩
  · intro h
    apply hb
    have := congrArg List.length h
    rw [List.length_map, numberFrom_length] at this
    exact List.eq_nil_of_length_eq_zero this
  · exact episodes_map_number cfg topic _ (fun _ => ProviderResponse.missing) _ 1
  · intro e he
    obtain ⟨p, _, rfl⟩ := List.mem_map.mp he
    exact composeEpisode_missing_wellformed cfg topic _ p.1 p.2

lemma dedup_fold_ne_nil : ∀ (l acc : List Segment), acc ≠ [] →
    l.foldl (fun acc s =>
      if acc.any (fun v => v.full_text == s.full_text) then acc else acc ++ [s]) acc
      ≠ [] := by
  intro l
  induction l with
  | nil => intro acc h; exact h
  | cons s t ih =>
    intro acc h
    rw [List.foldl_cons]
    apply ih
    split_ifs with hs
    · exact h
    · simp

lemma dedupByText_ne_nil (l : List Segment) (h : l ≠ []) : dedupByText l ≠ [] := by
  obtain ⟨s, t, rfl⟩ := List.exists_cons_of_ne_nil h
  unfold dedupByText
  rw [List.foldl_cons]
  have hfst : (if ([] : List Segment).any (fun v => v.full_text == s.full_text)
      then ([] : List Segment) else [] ++ [s]) = [s] := by simp
  rw [hfst]
  exact dedup_fold_ne_nil t [s] (by simp)

set_option maxRecDepth 8000 in
/-- The mock fixture segments survive the composer's usability filter. -/
lemma mock_segments_usable (cfg : Settings)
    (hw : cfg.min_segment_words ≤ countWords mockArticle) :
    filterSegments cfg.min_segment_words (processUrls cfg mockFetch mockUrls) ≠ [] := by
  have hban : (bannedPhrases.any (fun p => strContains mockArticle p)) = false := by
    decide
  have hu : ∀ u, usableSegment cfg.min_segment_words (processUrl cfg mockFetch u)
      = true := by
    intro u
    simp [usableSegment, processUrl, mockFetch, hban, hw]
  have hself : (processUrls cfg mockFetch mockUrls).filter
      (usableSegment cfg.min_segment_words) = processUrls cfg mockFetch mockUrls := by
    apply List.filter_eq_self.mpr
    intro s hs
    obtain ⟨u, _, rfl⟩ := List.mem_map.mp hs
    exact hu u
  unfold filterSegments
  rw [hself]
  apply dedupByText_ne_nil
  simp [processUrls, mockUrls]

/-- C6: with `mock_mode = true` (and the fixture article passing the minimum
word count, as it does at the defaults), the pipeline accumulates zero usage
— zero provider calls, zero tokens — while still producing a schema-valid
course manifest. -/
theorem c6_mock_mode_zero_usage_valid_manifest (cfg : Settings)
    (search : Nat → List String × Usage) (fetch : String → FetchResult)
    (generate : Nat → ProviderResponse × Usage) (topic slug : String) (days : ℚ)
    (hm : cfg.mock_mode = true)
    (hw : cfg.min_segment_words ≤ countWords mockArticle) :
    (runPipeline cfg search fetch generate topic slug days).2 = zeroUsage ∧
    validManifest cfg (runPipeline cfg search fetch generate topic slug days).1 := by
  have hcz : (composeRun cfg generate topic slug days
      (processUrls cfg mockFetch mockUrls)).2 = zeroUsage := by
    unfold composeRun
    dsimp only
    simp [hm]
  unfold runPipeline searchStage fetchStage
  dsimp only
  simp only [hm, if_true]
  constructor
  · rw [hcz]
    rfl
  · exact composeRun_valid_of_mock cfg generate topic slug days _ hm
      (mock_segments_usable cfg hw)

/-- Default settings with mock mode switched on. -/
def mockCfg : Settings := { defaultSettings with mock_mode := true }

/-- C6 witness: a mock run at the defaults with stub oracles accumulates zero
usage and still produces at least one episode. -/
theorem c6_mock_mode_witness :
    (runPipeline mockCfg (fun _ => ([], zeroUsage)) (fun _ => .failed "offline")
        (fun _ => (ProviderResponse.missing, zeroUsage)) "Machine Learning"
        "machine-learning" 5).2 = zeroUsage ∧
    (runPipeline mockCfg (fun _ => ([], zeroUsage)) (fun _ => .failed "offline")
        (fun _ => (ProviderResponse.missing, zeroUsage)) "Machine Learning"
        "machine-learning" 5).1.episodes ≠ [] :=
  ⟨(c6_mock_mode_zero_usage_valid_manifest mockCfg (fun _ => ([], zeroUsage))
      (fun _ => .failed "offline") (fun _ => (ProviderResponse.missing, zeroUsage))
      "Machine Learning" "machine-learning" 5 rfl (by decide)).1,
   (c6_mock_mode_zero_usage_valid_manifest mockCfg (fun _ => ([], zeroUsage))
      (fun _ => .failed "offline") (fun _ => (ProviderResponse.missing, zeroUsage))
      "Machine Learning" "machine-learning" 5 rfl (by decide)).2.1⟩

end Adhithe
